import Mathlib

/-
Shallow embedding of the Covid-Data-Proj repository.

Model layer: src/covid-data/model/model.tsx
Controller layer: src/unnamed/part_000 (StorageController / CovidController)

Conventions of the embedding:
* JavaScript numbers are embedded as `Int` (the repository only ever stores
  integral counts and epoch-millisecond timestamps in these fields); the
  floating-point division inside the rate getters is embedded as exact
  rational arithmetic (`ℚ`) followed by the `toFixed(2)` rounding rule.
* A possibly-absent field (`undefined` in the JS input object) is `Option`.
* The JS idiom `x || d` on a number is falsy exactly on `0` (and absence),
  so it is embedded by `orNum`; on a string it is falsy exactly on `""`,
  embedded by `orStr`.
* JS objects used as date-keyed series are embedded as association lists in
  insertion order, matching `Object.keys` enumeration order for such keys.
* `Date.now()` is an explicit `now : Int` parameter.
-/

namespace Covid

/-- `CACHE_DURATION` from model.tsx (one hour in milliseconds). -/
def CACHE_DURATION : Int := 3600000

/-- Embedding of the JS expression `v || d` for a numeric field `v` that may
be absent: `undefined` and `0` are falsy, every other number is kept. -/
def orNum (v : Option Int) (d : Int) : Int :=
  match v with
  | none => d
  | some x => if x = 0 then d else x

/-- Embedding of the JS expression `v || d` for a string field `v` that may
be absent: `undefined` and `""` are falsy, every other string is kept. -/
def orStr (v : Option String) (d : String) : String :=
  match v with
  | none => d
  | some s => if s = "" then d else s

/-- The `CountryInfo` sub-record (model.tsx). -/
structure CountryInfo where
  _id : Int
  iso2 : String
  iso3 : String
  lat : Int
  long : Int
  flag : String
deriving DecidableEq, Repr

/-- The default `countryInfo` literal used by the `CountryModel` constructor
when `data.countryInfo` is absent. -/
def defaultCountryInfo : CountryInfo :=
  { _id := 0, iso2 := "", iso3 := "", lat := 0, long := 0, flag := "" }

/-- Raw input object for the `CountryModel` constructor: every field may be
absent (`undefined`). Mirrors the `CountryData` interface of model.tsx as the
constructor actually consumes it. -/
structure CountryDataIn where
  country : Option String := none
  countryInfo : Option CountryInfo := none
  updated : Option Int := none
  cases : Option Int := none
  todayCases : Option Int := none
  deaths : Option Int := none
  todayDeaths : Option Int := none
  recovered : Option Int := none
  todayRecovered : Option Int := none
  active : Option Int := none
  critical : Option Int := none
  casesPerOneMillion : Option Int := none
  deathsPerOneMillion : Option Int := none
  tests : Option Int := none
  testsPerOneMillion : Option Int := none
  population : Option Int := none
  continent : Option String := none
  oneCasePerPeople : Option Int := none
  oneDeathPerPeople : Option Int := none
  oneTestPerPeople : Option Int := none
  activePerOneMillion : Option Int := none
  recoveredPerOneMillion : Option Int := none
  criticalPerOneMillion : Option Int := none
deriving DecidableEq, Repr

/-- The constructed `CountryModel` value object (model.tsx, class
`CountryModel`): all fields concrete after the constructor's defaulting. -/
structure CountryModel where
  country : String
  countryInfo : CountryInfo
  updated : Int
  cases : Int
  todayCases : Int
  deaths : Int
  todayDeaths : Int
  recovered : Int
  todayRecovered : Int
  active : Int
  critical : Int
  casesPerOneMillion : Int
  deathsPerOneMillion : Int
  tests : Int
  testsPerOneMillion : Int
  population : Int
  continent : String
  oneCasePerPeople : Int
  oneDeathPerPeople : Int
  oneTestPerPeople : Int
  activePerOneMillion : Int
  recoveredPerOneMillion : Int
  criticalPerOneMillion : Int
deriving DecidableEq, Repr

/-- The `CountryModel` constructor (model.tsx lines 113-144). `now` is the
value of `Date.now()` at construction time: the source sets
`this.updated = data.updated || Date.now()`. -/
def mkCountryModel (data : CountryDataIn) (now : Int) : CountryModel :=
  { country := orStr data.country ""
    countryInfo := data.countryInfo.getD defaultCountryInfo
    updated := orNum data.updated now
    cases := orNum data.cases 0
    todayCases := orNum data.todayCases 0
    deaths := orNum data.deaths 0
    todayDeaths := orNum data.todayDeaths 0
    recovered := orNum data.recovered 0
    todayRecovered := orNum data.todayRecovered 0
    active := orNum data.active 0
    critical := orNum data.critical 0
    casesPerOneMillion := orNum data.casesPerOneMillion 0
    deathsPerOneMillion := orNum data.deathsPerOneMillion 0
    tests := orNum data.tests 0
    testsPerOneMillion := orNum data.testsPerOneMillion 0
    population := orNum data.population 0
    continent := orStr data.continent ""
    oneCasePerPeople := orNum data.oneCasePerPeople 0
    oneDeathPerPeople := orNum data.oneDeathPerPeople 0
    oneTestPerPeople := orNum data.oneTestPerPeople 0
    activePerOneMillion := orNum data.activePerOneMillion 0
    recoveredPerOneMillion := orNum data.recoveredPerOneMillion 0
    criticalPerOneMillion := orNum data.criticalPerOneMillion 0 }

/-- Render a nonnegative count of hundredths as a decimal string with
exactly two digits after the point (helper for `toFixed2`). -/
def renderCentsNat (n : Nat) : String :=
  toString (n / 100) ++ "." ++
    (if n % 100 < 10 then "0" ++ toString (n % 100) else toString (n % 100))

/-- Render a count of hundredths (possibly negative) as a decimal string. -/
def renderCents (n : Int) : String :=
  if n < 0 then "-" ++ renderCentsNat (-n).toNat else renderCentsNat n.toNat

/-- Embedding of JavaScript `x.toFixed(2)` on the exact rational value `q`:
the integer of hundredths closest to `q` is chosen, ties going to the larger
integer, and rendered with two digits after the decimal point. -/
def toFixed2 (q : ℚ) : String :=
  renderCents ⌊q * 100 + 1/2⌋

/-- `CountryModel.getDeathRate` (model.tsx lines 146-149). -/
def CountryModel.getDeathRate (m : CountryModel) : String :=
  if m.cases = 0 then "0.00"
  else toFixed2 ((m.deaths : ℚ) / (m.cases : ℚ) * 100)

/-- `CountryModel.getRecoveryRate` (model.tsx lines 151-154). -/
def CountryModel.getRecoveryRate (m : CountryModel) : String :=
  if m.cases = 0 then "0.00"
  else toFixed2 ((m.recovered : ℚ) / (m.cases : ℚ) * 100)

/-- `CountryModel.getActiveRate` (model.tsx lines 156-159). -/
def CountryModel.getActiveRate (m : CountryModel) : String :=
  if m.cases = 0 then "0.00"
  else toFixed2 ((m.active : ℚ) / (m.cases : ℚ) * 100)

/-- `CountryModel.fromArray` (model.tsx lines 161-163). -/
def CountryModel.fromArray (l : List CountryDataIn) (now : Int) : List CountryModel :=
  l.map (fun item => mkCountryModel item now)

/-- A date-keyed numeric series: association list in insertion order. -/
def Series : Type := List (String × Int)

instance : DecidableEq Series := by
  unfold Series
  infer_instance

/-- Raw input timeline: each series may be absent. -/
structure TimelineIn where
  cases : Option (List (String × Int)) := none
  deaths : Option (List (String × Int)) := none
  recovered : Option (List (String × Int)) := none
deriving DecidableEq, Repr

/-- Raw input object for the `HistoricalDataModel` constructor. -/
structure HistoricalDataIn where
  country : Option String := none
  province : Option (List String) := none
  timeline : Option TimelineIn := none
deriving DecidableEq, Repr

/-- Concrete timeline after constructor defaulting. -/
structure Timeline where
  cases : List (String × Int)
  deaths : List (String × Int)
  recovered : List (String × Int)
deriving DecidableEq, Repr

/-- The constructed `HistoricalDataModel` (model.tsx, class
`HistoricalDataModel`). -/
structure HistoricalDataModel where
  country : String
  province : List String
  timeline : Timeline
deriving DecidableEq, Repr

/-- The `HistoricalDataModel` constructor (model.tsx lines 171-179):
`data.timeline?.cases || {}` defaults an absent series to the empty mapping
(a present object, even empty, is truthy and kept). -/
def mkHistoricalDataModel (data : HistoricalDataIn) : HistoricalDataModel :=
  { country := orStr data.country ""
    province := data.province.getD []
    timeline :=
      { cases := ((data.timeline.map TimelineIn.cases).join).getD []
        deaths := ((data.timeline.map TimelineIn.deaths).join).getD []
        recovered := ((data.timeline.map TimelineIn.recovered).join).getD [] } }

/-- One point of the derived chart data (model.tsx `ChartDataPoint`). -/
structure ChartDataPoint where
  date : String
  cases : Int
  deaths : Int
  recovered : Int
deriving DecidableEq, Repr

/-- Embedding of `this.timeline.x[date] || 0`: look a key up in a series,
absent keys give 0. -/
def lookupOr0 (l : List (String × Int)) (k : String) : Int :=
  match l.find? (fun p => p.1 == k) with
  | some p => p.2
  | none => 0

/-- Embedding of JavaScript `s.split(c)` for a one-character separator:
structural recursion over the character list of `s`. `"".split(c)` is
`[""]`, as in JS. -/
def jsSplitAux (c : Char) : List Char → List Char → List String
  | [], acc => [String.mk acc.reverse]
  | ch :: rest, acc =>
      if ch = c then String.mk acc.reverse :: jsSplitAux c rest []
      else jsSplitAux c rest (ch :: acc)

/-- JavaScript `s.split(c)` with a one-character separator. -/
def jsSplit (s : String) (c : Char) : List String :=
  jsSplitAux c s.data []

/-- `HistoricalDataModel.formatDate` (model.tsx lines 192-195): split on "/"
and keep month and day; a missing component interpolates as the string
"undefined", as the JS template literal does to an `undefined` binding. -/
def HistoricalDataModel.formatDate (dateString : String) : String :=
  let parts := jsSplit dateString '/'
  (parts.getD 0 "undefined") ++ "/" ++ (parts.getD 1 "undefined")

/-- `HistoricalDataModel.getChartData` (model.tsx lines 181-190): map over
the keys of the cases series in insertion order, looking each date up in all
three series with default 0. -/
def HistoricalDataModel.getChartData (m : HistoricalDataModel) : List ChartDataPoint :=
  m.timeline.cases.map (fun p =>
    { date := HistoricalDataModel.formatDate p.1
      cases := lookupOr0 m.timeline.cases p.1
      deaths := lookupOr0 m.timeline.deaths p.1
      recovered := lookupOr0 m.timeline.recovered p.1 })

/-- `isDataStale` (model.tsx lines 322-326). The source reads `Date.now()`
itself; it is the explicit parameter `now` here. The JS guard
`if (!lastUpdate) return true` is truthy-based: both `null` and the number
`0` take that branch. -/
def isDataStale (lastUpdate : Option Int) (cacheDuration : Int) (now : Int) : Bool :=
  match lastUpdate with
  | none => true
  | some m => if m = 0 then true else decide (now - m > cacheDuration)

/-
Controller layer (src/unnamed/part_000).

The Persistence Store is embedded as an explicit typed state `Storage` whose
slots correspond to the storage keys: the country-list slot, the
last-update marker slot, and one historical slot per country name (the
source key is a fixed string concatenated with the name, which is injective
in the name). A `StorageService` read that fails is caught inside
`StorageService`/`StorageController` and surfaces as `none`/`false`, so slot
contents model the observable behaviour of the store.

The behaviours of the external collaborators for one Engine operation are an
`Env`: the connectivity probe and the axios calls may throw (`Except`), and
the three storage writes may fail (`Bool` flags, the value `StorageService
setItem` returns after catching).

Inside each Engine operation the only call that can raise past the inner
service layers is `checkConnection` (`NetInfo.fetch` is not wrapped in any
inner try/catch), so each operation is split into its try block
(`Except`-valued: a raised fault propagates as `.error`) and its catch block
(total), combined exactly as the source's try/catch does.

Each operation returns a `FetchOut`: the structured outcome, the
post-state of the store, and instrumentation counting how many times the
remote endpoint was invoked and how many times the operation's relevant
cache slot was read.
-/

/-- Behaviour of the external collaborators during one Engine operation. -/
structure Env where
  netFetch : Except String Bool
  apiAll : Except String (List CountryDataIn)
  apiCountry : String → Except String CountryDataIn
  apiHist : String → String → Except String HistoricalDataIn
  setCountriesOk : Bool
  setLastUpdateOk : Bool
  setHistOk : Bool

/-- The typed slots of the Persistence Store. -/
structure Storage where
  countries : Option (List CountryDataIn)
  lastUpdate : Option Int
  historical : String → Option HistoricalDataIn

/-- The structured outcome of an Engine operation (`FetchResult` interface in
src/unnamed/part_000): optional fields are `Option`. -/
structure FetchResult (α : Type) where
  success : Bool
  data : α
  fromCache : Option Bool := none
  message : Option String := none
  error : Option String := none
deriving DecidableEq, Repr

/-- Outcome plus post-state and instrumentation for one Engine operation. -/
structure FetchOut (α : Type) where
  result : FetchResult α
  store : Storage
  apiCalls : Nat
  cacheReads : Nat

/-- `ApiService` response shape: `{ success, data?, error? }`. -/
structure ApiResp (α : Type) where
  success : Bool
  data : Option α := none
  error : Option String := none
deriving DecidableEq, Repr

/-- `ApiService.getAllCountries` (model.tsx lines 271-279): axios faults are
caught and become `{ success: false, error }`. -/
def apiGetAllCountries (env : Env) : ApiResp (List CountryDataIn) :=
  match env.apiAll with
  | .ok d => { success := true, data := some d }
  | .error e => { success := false, error := some e }

/-- `ApiService.getCountry` (model.tsx lines 281-289). -/
def apiGetCountry (env : Env) (countryName : String) : ApiResp CountryDataIn :=
  match env.apiCountry countryName with
  | .ok d => { success := true, data := some d }
  | .error e => { success := false, error := some e }

/-- `ApiService.getHistoricalData` (model.tsx lines 291-301). -/
def apiGetHistoricalData (env : Env) (countryName days : String) : ApiResp HistoricalDataIn :=
  match env.apiHist countryName days with
  | .ok d => { success := true, data := some d }
  | .error e => { success := false, error := some e }

/-- `StorageController.saveCountriesData` (part_000 lines 21-32): write the
list; only if that write succeeded, also write `Date.now()` to the
last-update marker slot. Returns the success of the first write and the
post-state. -/
def saveCountriesData (env : Env) (st : Storage) (d : List CountryDataIn) (now : Int) :
    Bool × Storage :=
  if env.setCountriesOk then
    let st1 : Storage := { st with countries := some d }
    if env.setLastUpdateOk then (true, { st1 with lastUpdate := some now })
    else (true, st1)
  else (false, st)

/-- `StorageController.saveHistoricalData` (part_000 lines 43-51): write the
series under the key derived from the country name. -/
def saveHistoricalData (env : Env) (st : Storage) (countryName : String)
    (d : HistoricalDataIn) : Bool × Storage :=
  if env.setHistOk then
    (true, { st with historical := fun n => if n = countryName then some d else st.historical n })
  else (false, st)

/-- The cache-read fallthrough at the end of `fetchAllCountries`'s try block
(part_000 lines 146-160): serve cache with a message, or fail with
"No data available". `api`/`reads0` are the instrumentation counts
accumulated before this point. -/
def countriesFallback (st : Storage) (now : Int) (api reads0 : Nat) :
    FetchOut (List CountryModel) :=
  match st.countries with
  | some d =>
      { result := { success := true, data := CountryModel.fromArray d now,
                    fromCache := some true,
                    message := some "Using cached data (offline or API unavailable)" }
        store := st, apiCalls := api, cacheReads := reads0 + 1 }
  | none =>
      { result := { success := false, data := [], error := some "No data available" }
        store := st, apiCalls := api, cacheReads := reads0 + 1 }

/-- The remote-attempt part of `fetchAllCountries`'s try block (part_000
lines 131-160), entered after the not-stale early return did not fire.
`reads0` counts the cache reads already performed. -/
def afterFirstRead (env : Env) (st : Storage) (now : Int)
    (forceRefresh isConnected : Bool) (reads0 : Nat) : FetchOut (List CountryModel) :=
  if isConnected && (forceRefresh || isDataStale st.lastUpdate CACHE_DURATION now) then
    match (apiGetAllCountries env).success, (apiGetAllCountries env).data with
    | true, some d =>
        { result := { success := true, data := CountryModel.fromArray d now,
                      fromCache := some false }
          store := (saveCountriesData env st d now).2, apiCalls := 1, cacheReads := reads0 }
    | _, _ => countriesFallback st now 1 reads0
  else countriesFallback st now 0 reads0

/-- The try block of `CovidController.fetchAllCountries` (part_000 lines
115-160): after `checkConnection` (the one call that can raise) the body is
pure. -/
def tryFetchAllCountries (env : Env) (st : Storage) (now : Int)
    (forceRefresh : Bool) : Except String (FetchOut (List CountryModel)) :=
  match env.netFetch with
  | .error e => .error e
  | .ok isConnected =>
      .ok (if !forceRefresh && !(isDataStale st.lastUpdate CACHE_DURATION now) then
             match st.countries with
             | some d =>
                 { result := { success := true, data := CountryModel.fromArray d now,
                               fromCache := some true }
                   store := st, apiCalls := 0, cacheReads := 1 }
             | none => afterFirstRead env st now forceRefresh isConnected 1
           else afterFirstRead env st now forceRefresh isConnected 0)

/-- The catch block of `CovidController.fetchAllCountries` (part_000 lines
161-179): read the cache once more; serve it with an explanatory message, or
fail with the fault's message. -/
def catchFetchAllCountries (e : String) (st : Storage) (now : Int) :
    FetchOut (List CountryModel) :=
  match st.countries with
  | some d =>
      { result := { success := true, data := CountryModel.fromArray d now,
                    fromCache := some true,
                    message := some "Using cached data due to error" }
        store := st, apiCalls := 0, cacheReads := 1 }
  | none =>
      { result := { success := false, data := [], error := some e }
        store := st, apiCalls := 0, cacheReads := 1 }

/-- `CovidController.fetchAllCountries` (part_000 lines 114-180): the try
block, with every raised fault handled by the catch block. -/
def fetchAllCountries (env : Env) (st : Storage) (now : Int)
    (forceRefresh : Bool) : FetchOut (List CountryModel) :=
  match tryFetchAllCountries env st now forceRefresh with
  | .ok r => r
  | .error e => catchFetchAllCountries e st now

/-- The cached-list search of `fetchCountryDetails` (part_000 lines
197-213): read the country-list slot and look for an exact name match on the
raw `country` field. -/
def detailsCacheSearch (st : Storage) (now : Int) (countryName : String) (api : Nat) :
    FetchOut (Option CountryModel) :=
  match st.countries with
  | some l =>
      match l.find? (fun c => c.country == some countryName) with
      | some c =>
          { result := { success := true, data := some (mkCountryModel c now),
                        fromCache := some true }
            store := st, apiCalls := api, cacheReads := 1 }
      | none =>
          { result := { success := false, data := none,
                        error := some "Country data not available" }
            store := st, apiCalls := api, cacheReads := 1 }
  | none =>
      { result := { success := false, data := none,
                    error := some "Country data not available" }
        store := st, apiCalls := api, cacheReads := 1 }

/-- The try block of `CovidController.fetchCountryDetails` (part_000 lines
183-213). -/
def tryFetchCountryDetails (env : Env) (st : Storage) (now : Int)
    (countryName : String) : Except String (FetchOut (Option CountryModel)) :=
  match env.netFetch with
  | .error e => .error e
  | .ok isConnected =>
      .ok (if isConnected then
             match (apiGetCountry env countryName).success,
                   (apiGetCountry env countryName).data with
             | true, some d =>
                 { result := { success := true, data := some (mkCountryModel d now) }
                   store := st, apiCalls := 1, cacheReads := 0 }
             | _, _ => detailsCacheSearch st now countryName 1
           else detailsCacheSearch st now countryName 0)

/-- The catch block of `CovidController.fetchCountryDetails` (part_000 lines
214-221): report the fault as a failure; no cache read. -/
def catchFetchCountryDetails (e : String) (st : Storage) :
    FetchOut (Option CountryModel) :=
  { result := { success := false, data := none, error := some e }
    store := st, apiCalls := 0, cacheReads := 0 }

/-- `CovidController.fetchCountryDetails` (part_000 lines 182-222). -/
def fetchCountryDetails (env : Env) (st : Storage) (now : Int)
    (countryName : String) : FetchOut (Option CountryModel) :=
  match tryFetchCountryDetails env st now countryName with
  | .ok r => r
  | .error e => catchFetchCountryDetails e st

/-- The cached-entry fallback of `fetchHistoricalData`'s try block (part_000
lines 245-257), applied to the entry read at the start of the operation. -/
def historicalFallback (st : Storage) (cached : Option HistoricalDataIn) (api : Nat) :
    FetchOut (Option HistoricalDataModel) :=
  match cached with
  | some d =>
      { result := { success := true, data := some (mkHistoricalDataModel d),
                    fromCache := some true }
        store := st, apiCalls := api, cacheReads := 1 }
  | none =>
      { result := { success := false, data := none,
                    error := some "Historical data not available" }
        store := st, apiCalls := api, cacheReads := 1 }

/-- The try block of `CovidController.fetchHistoricalData` (part_000 lines
225-257): the per-country cache entry is read first, unconditionally; a
successful remote fetch persists and returns fresh data; otherwise the entry
read at the start is served if present. -/
def tryFetchHistoricalData (env : Env) (st : Storage) (countryName days : String) :
    Except String (FetchOut (Option HistoricalDataModel)) :=
  match env.netFetch with
  | .error e => .error e
  | .ok isConnected =>
      .ok (if isConnected then
             match (apiGetHistoricalData env countryName days).success,
                   (apiGetHistoricalData env countryName days).data with
             | true, some d =>
                 { result := { success := true, data := some (mkHistoricalDataModel d),
                               fromCache := some false }
                   store := (saveHistoricalData env st countryName d).2
                   apiCalls := 1, cacheReads := 1 }
             | _, _ => historicalFallback st (st.historical countryName) 1
           else historicalFallback st (st.historical countryName) 0)

/-- The catch block of `CovidController.fetchHistoricalData` (part_000 lines
258-275): read the per-country cache entry again; serve it, or fail with the
fault's message. -/
def catchFetchHistoricalData (e : String) (st : Storage) (countryName : String) :
    FetchOut (Option HistoricalDataModel) :=
  match st.historical countryName with
  | some d =>
      { result := { success := true, data := some (mkHistoricalDataModel d),
                    fromCache := some true }
        store := st, apiCalls := 0, cacheReads := 1 }
  | none =>
      { result := { success := false, data := none, error := some e }
        store := st, apiCalls := 0, cacheReads := 1 }

/-- `CovidController.fetchHistoricalData` (part_000 lines 224-276). -/
def fetchHistoricalData (env : Env) (st : Storage) (countryName days : String) :
    FetchOut (Option HistoricalDataModel) :=
  match tryFetchHistoricalData env st countryName days with
  | .ok r => r
  | .error e => catchFetchHistoricalData e st countryName

/-- `CovidController.refreshData` (part_000 lines 278-280). -/
def refreshData (env : Env) (st : Storage) (now : Int) : FetchOut (List CountryModel) :=
  fetchAllCountries env st now true

/-
Concrete collaborator behaviours and store states used by witnesses and
counterexamples.
-/

/-- A raw country record carrying only a name. -/
def cdFrance : CountryDataIn := { country := some "France" }

/-- Online, but every remote endpoint fails; all writes succeed. -/
def envNoRemote : Env :=
  { netFetch := .ok true, apiAll := .error "unreachable",
    apiCountry := fun _ => .error "unreachable",
    apiHist := fun _ _ => .error "unreachable",
    setCountriesOk := true, setLastUpdateOk := true, setHistOk := true }

/-- Offline; every remote endpoint would fail; all writes succeed. -/
def envOffline : Env :=
  { netFetch := .ok false, apiAll := .error "offline",
    apiCountry := fun _ => .error "offline",
    apiHist := fun _ _ => .error "offline",
    setCountriesOk := true, setLastUpdateOk := true, setHistOk := true }

/-- Online; the list-all endpoint returns one record; all writes succeed. -/
def envListOk : Env :=
  { netFetch := .ok true, apiAll := .ok [cdFrance],
    apiCountry := fun _ => .error "unreachable",
    apiHist := fun _ _ => .error "unreachable",
    setCountriesOk := true, setLastUpdateOk := true, setHistOk := true }

/-- Online; the list-all endpoint returns one record; the country-list
write fails (the store raises and `StorageService` converts that to
`false`). -/
def envListOkWriteFail : Env :=
  { netFetch := .ok true, apiAll := .ok [cdFrance],
    apiCountry := fun _ => .error "unreachable",
    apiHist := fun _ _ => .error "unreachable",
    setCountriesOk := false, setLastUpdateOk := true, setHistOk := true }

/-- The connectivity probe itself raises. -/
def envNetFault : Env :=
  { netFetch := .error "network down", apiAll := .error "offline",
    apiCountry := fun _ => .error "offline",
    apiHist := fun _ _ => .error "offline",
    setCountriesOk := true, setLastUpdateOk := true, setHistOk := true }

/-- Empty store. -/
def stEmpty : Storage :=
  { countries := none, lastUpdate := none, historical := fun _ => none }

/-- Store with a fresh marker and a populated country-list slot. -/
def stFresh : Storage :=
  { countries := some [cdFrance], lastUpdate := some 1, historical := fun _ => none }

/-- Store with a fresh marker and an empty country-list slot. -/
def stFreshEmpty : Storage :=
  { countries := none, lastUpdate := some 1, historical := fun _ => none }

/-- Store with a populated country-list slot and one historical entry. -/
def stWithHist : Storage :=
  { countries := some [cdFrance], lastUpdate := none,
    historical := fun n => if n = "France" then some {} else none }

end Covid

namespace Covid

/-
Helper lemmas shared by the claim theorems below.
-/

/-- `orStr (some s) ""` is `s` whether or not `s` is empty. -/
theorem orStr_some_self (s : String) : orStr (some s) "" = s := by
  by_cases h : s = "" <;> simp [orStr, h]

/-- An absent numeric field takes the default. -/
theorem orNum_none (d : Int) : orNum none d = d := rfl

/-- An absent string field takes the default. -/
theorem orStr_none (d : String) : orStr none d = d := rfl

/-- The try-block cache fallthrough never changes the store. -/
theorem countriesFallback_store (st : Storage) (now : Int) (api reads0 : Nat) :
    (countriesFallback st now api reads0).store = st := by
  cases h : st.countries <;> simp [countriesFallback, h]

/-- The catch block of `fetchAllCountries` never changes the store. -/
theorem catchFetchAllCountries_store (e : String) (st : Storage) (now : Int) :
    (catchFetchAllCountries e st now).store = st := by
  cases h : st.countries <;> simp [catchFetchAllCountries, h]

/-- The catch block of `fetchAllCountries` reads the country-list slot
exactly once. -/
theorem catchFetchAllCountries_cacheReads (e : String) (st : Storage) (now : Int) :
    (catchFetchAllCountries e st now).cacheReads = 1 := by
  cases h : st.countries <;> simp [catchFetchAllCountries, h]

/-- The catch block of `fetchAllCountries` performs no remote call. -/
theorem catchFetchAllCountries_apiCalls (e : String) (st : Storage) (now : Int) :
    (catchFetchAllCountries e st now).apiCalls = 0 := by
  cases h : st.countries <;> simp [catchFetchAllCountries, h]

/-- The catch block of `fetchHistoricalData` reads the per-country slot
exactly once. -/
theorem catchFetchHistoricalData_cacheReads (e : String) (st : Storage) (n : String) :
    (catchFetchHistoricalData e st n).cacheReads = 1 := by
  cases h : st.historical n <;> simp [catchFetchHistoricalData, h]

/-- C1 counterexample. The claim states `isDataStale(m, d)` is true exactly
when the marker is absent or `now - m > d`; but the source's truthiness
guard `if (!lastUpdate) return true` also fires on a present marker equal to
`0`: with marker `0`, duration `5`, now `3`, the code reports stale although
the marker is present and `now - m = 3 ≤ 5`. -/
theorem isDataStale_zero_marker_counterexample :
    ¬ (isDataStale (some 0) 5 3 = true ↔
        ((some (0 : Int)) = none ∨ (3 : Int) - 0 > 5)) := by
  decide

/-- C1 (amended): `isDataStale(m, d)` at time `now` is true exactly when the
marker is absent, or the marker is the (falsy) value `0`, or `now - m > d`;
in particular on the boundary `now - m = d` (with `m ≠ 0`) the data is NOT
stale. -/
theorem isDataStale_characterization (lastUpdate : Option Int) (cacheDuration now : Int) :
    isDataStale lastUpdate cacheDuration now = true ↔
      lastUpdate = none ∨ lastUpdate = some 0 ∨
        ∃ m, lastUpdate = some m ∧ now - m > cacheDuration := by
  cases lastUpdate with
  | none => simp [isDataStale]
  | some m =>
      by_cases h : m = 0
      · subst h; simp [isDataStale]
      · simp [isDataStale, h]

/-- C2 counterexample. The claim states that a record constructed from
`{country:"X"}` alone has every numeric field equal to 0; but the source
sets `this.updated = data.updated || Date.now()`: constructed at clock value
123 the `updated` field is 123, not 0. -/
theorem countryModel_updated_counterexample :
    (mkCountryModel { country := some "X" } 123).updated = 123 ∧ (123 : Int) ≠ 0 := by
  decide

/-- C2 (amended): a record constructed from `{country:"X"}` alone has every
numeric field equal to 0 except `updated`, which is set to the
construction-time clock value; every string field is empty except `country`;
`countryInfo` is the zero-valued sub-record. More generally every absent
numeric field other than `updated` defaults to 0, absent `updated` defaults
to the current time, absent string fields default to empty, and absent
`countryInfo` defaults to the zero-valued sub-record. -/
theorem countryModel_defaults :
    (∀ c now, mkCountryModel { country := some c } now =
      { country := c, countryInfo := defaultCountryInfo, updated := now, cases := 0,
        todayCases := 0, deaths := 0, todayDeaths := 0, recovered := 0,
        todayRecovered := 0, active := 0, critical := 0, casesPerOneMillion := 0,
        deathsPerOneMillion := 0, tests := 0, testsPerOneMillion := 0,
        population := 0, continent := "", oneCasePerPeople := 0,
        oneDeathPerPeople := 0, oneTestPerPeople := 0, activePerOneMillion := 0,
        recoveredPerOneMillion := 0, criticalPerOneMillion := 0 })
    ∧ (∀ (d : CountryDataIn) (now : Int), (mkCountryModel { d with cases := none } now).cases = 0)
    ∧ (∀ (d : CountryDataIn) (now : Int), (mkCountryModel { d with todayCases := none } now).todayCases = 0)
    ∧ (∀ (d : CountryDataIn) (now : Int), (mkCountryModel { d with deaths := none } now).deaths = 0)
    ∧ (∀ (d : CountryDataIn) (now : Int), (mkCountryModel { d with todayDeaths := none } now).todayDeaths = 0)
    ∧ (∀ (d : CountryDataIn) (now : Int), (mkCountryModel { d with recovered := none } now).recovered = 0)
    ∧ (∀ (d : CountryDataIn) (now : Int), (mkCountryModel { d with todayRecovered := none } now).todayRecovered = 0)
    ∧ (∀ (d : CountryDataIn) (now : Int), (mkCountryModel { d with active := none } now).active = 0)
    ∧ (∀ (d : CountryDataIn) (now : Int), (mkCountryModel { d with critical := none } now).critical = 0)
    ∧ (∀ (d : CountryDataIn) (now : Int), (mkCountryModel { d with casesPerOneMillion := none } now).casesPerOneMillion = 0)
    ∧ (∀ (d : CountryDataIn) (now : Int), (mkCountryModel { d with deathsPerOneMillion := none } now).deathsPerOneMillion = 0)
    ∧ (∀ (d : CountryDataIn) (now : Int), (mkCountryModel { d with tests := none } now).tests = 0)
    ∧ (∀ (d : CountryDataIn) (now : Int), (mkCountryModel { d with testsPerOneMillion := none } now).testsPerOneMillion = 0)
    ∧ (∀ (d : CountryDataIn) (now : Int), (mkCountryModel { d with population := none } now).population = 0)
    ∧ (∀ (d : CountryDataIn) (now : Int), (mkCountryModel { d with oneCasePerPeople := none } now).oneCasePerPeople = 0)
    ∧ (∀ (d : CountryDataIn) (now : Int), (mkCountryModel { d with oneDeathPerPeople := none } now).oneDeathPerPeople = 0)
    ∧ (∀ (d : CountryDataIn) (now : Int), (mkCountryModel { d with oneTestPerPeople := none } now).oneTestPerPeople = 0)
    ∧ (∀ (d : CountryDataIn) (now : Int), (mkCountryModel { d with activePerOneMillion := none } now).activePerOneMillion = 0)
    ∧ (∀ (d : CountryDataIn) (now : Int), (mkCountryModel { d with recoveredPerOneMillion := none } now).recoveredPerOneMillion = 0)
    ∧ (∀ (d : CountryDataIn) (now : Int), (mkCountryModel { d with criticalPerOneMillion := none } now).criticalPerOneMillion = 0)
    ∧ (∀ (d : CountryDataIn) (now : Int), (mkCountryModel { d with updated := none } now).updated = now)
    ∧ (∀ (d : CountryDataIn) (now : Int), (mkCountryModel { d with country := none } now).country = "")
    ∧ (∀ (d : CountryDataIn) (now : Int), (mkCountryModel { d with continent := none } now).continent = "")
    ∧ (∀ (d : CountryDataIn) (now : Int), (mkCountryModel { d with countryInfo := none } now).countryInfo = defaultCountryInfo) := by
  refine ⟨?_, ?_, ?_, ?_, ?_, ?_, ?_, ?_, ?_, ?_, ?_, ?_, ?_, ?_, ?_, ?_, ?_, ?_, ?_, ?_,
          ?_, ?_, ?_, ?_⟩ <;>
    intros <;> simp [mkCountryModel, orStr_some_self, orNum_none, orStr_none]

/-- C3: each of the three rates is exactly `"0.00"` whenever `cases = 0`,
regardless of every other field; and for `cases > 0` each rate is the
corresponding ratio times 100 rendered by the two-decimal rounding rule. -/
theorem countryModel_rates :
    (∀ m : CountryModel, m.cases = 0 →
      m.getDeathRate = "0.00" ∧ m.getRecoveryRate = "0.00" ∧ m.getActiveRate = "0.00")
    ∧ (∀ m : CountryModel, 0 < m.cases →
      m.getDeathRate = toFixed2 ((m.deaths : ℚ) / (m.cases : ℚ) * 100)
      ∧ m.getRecoveryRate = toFixed2 ((m.recovered : ℚ) / (m.cases : ℚ) * 100)
      ∧ m.getActiveRate = toFixed2 ((m.active : ℚ) / (m.cases : ℚ) * 100)) := by
  constructor
  · intro m h
    simp [CountryModel.getDeathRate, CountryModel.getRecoveryRate,
          CountryModel.getActiveRate, h]
  · intro m h
    have h0 : m.cases ≠ 0 := by omega
    simp [CountryModel.getDeathRate, CountryModel.getRecoveryRate,
          CountryModel.getActiveRate, h0]

/-- A record with `cases = 0` but nonzero deaths, recovered and active. -/
def cRateZero : CountryModel :=
  mkCountryModel { deaths := some 7, recovered := some 3, active := some 2 } 0

/-- A record with `cases = 200` and `deaths = 31` (death rate 15.5%). -/
def cRatePos : CountryModel :=
  mkCountryModel { cases := some 200, deaths := some 31, recovered := some 25,
                   active := some 16 } 0

/-- C3 witness: the rate getters evaluated at concrete records. -/
theorem countryModel_rates_witness :
    cRateZero.getDeathRate = "0.00" ∧ cRatePos.getDeathRate = "15.50" := by
  constructor
  · exact (countryModel_rates.1 cRateZero (by decide)).1
  · have h := (countryModel_rates.2 cRatePos (by decide)).1
    rw [h]
    norm_num [cRatePos, mkCountryModel, orNum, toFixed2]
    decide

/-- C4: the chart-point derivation produces one point per cases-series key,
in the insertion order of the cases series, each point looking its date up
in all three series with default 0 and truncating the date to month/day; in
particular the claim's concrete example evaluates to exactly the stated
two-point list, in order. -/
theorem historical_chartData :
    (∀ m : HistoricalDataModel, m.getChartData.length = m.timeline.cases.length)
    ∧ (∀ (m : HistoricalDataModel) (i : Nat),
        m.getChartData[i]? = m.timeline.cases[i]?.map (fun p =>
          { date := HistoricalDataModel.formatDate p.1
            cases := lookupOr0 m.timeline.cases p.1
            deaths := lookupOr0 m.timeline.deaths p.1
            recovered := lookupOr0 m.timeline.recovered p.1 }))
    ∧ ((mkHistoricalDataModel { country := some "X",
                                timeline := some {
                                  cases := some [("3/1/21", 10), ("3/2/21", 20)],
                                  deaths := some [("3/1/21", 1)],
                                  recovered := some [] } }).getChartData
        = [{ date := "3/1", cases := 10, deaths := 1, recovered := 0 },
           { date := "3/2", cases := 20, deaths := 0, recovered := 0 }]) := by
  refine ⟨?_, ?_, ?_⟩
  · intro m; simp [HistoricalDataModel.getChartData]
  · intro m i; simp [HistoricalDataModel.getChartData]
  · decide

/-- C5: every Engine operation, under every behaviour of the collaborators
(including a connectivity probe that raises), terminates in a structured
outcome: every raised fault in the try block is consumed by the catch block,
so the caller always receives the try block's outcome or the catch block's
outcome, never a propagated exception. -/
theorem engine_no_uncaught_exceptions :
    ∀ (env : Env) (st : Storage) (now : Int) (forceRefresh : Bool) (countryName days : String),
      ((∃ r, tryFetchAllCountries env st now forceRefresh = .ok r ∧
             fetchAllCountries env st now forceRefresh = r) ∨
       (∃ e, tryFetchAllCountries env st now forceRefresh = .error e ∧
             fetchAllCountries env st now forceRefresh = catchFetchAllCountries e st now))
      ∧ ((∃ r, tryFetchCountryDetails env st now countryName = .ok r ∧
               fetchCountryDetails env st now countryName = r) ∨
         (∃ e, tryFetchCountryDetails env st now countryName = .error e ∧
               fetchCountryDetails env st now countryName = catchFetchCountryDetails e st))
      ∧ ((∃ r, tryFetchHistoricalData env st countryName days = .ok r ∧
               fetchHistoricalData env st countryName days = r) ∨
         (∃ e, tryFetchHistoricalData env st countryName days = .error e ∧
               fetchHistoricalData env st countryName days = catchFetchHistoricalData e st countryName)) := by
  intro env st now forceRefresh countryName days
  refine ⟨?_, ?_, ?_⟩ <;> cases h : env.netFetch <;>
    simp [tryFetchAllCountries, fetchAllCountries,
          tryFetchCountryDetails, fetchCountryDetails,
          tryFetchHistoricalData, fetchHistoricalData, h]

/-- C6: with a fresh marker and a populated country-list slot,
`fetchAllCountries(false)` succeeds from cache and never invokes the remote
list-all endpoint, whatever the collaborators would have done. -/
theorem fetchAllCountries_fresh_cache_no_remote :
    ∀ (env : Env) (st : Storage) (now : Int) (d : List CountryDataIn),
      isDataStale st.lastUpdate CACHE_DURATION now = false →
      st.countries = some d →
      ((fetchAllCountries env st now false).result.success = true
       ∧ (fetchAllCountries env st now false).result.fromCache = some true
       ∧ (fetchAllCountries env st now false).apiCalls = 0) := by
  intro env st now d hstale hcache
  cases h : env.netFetch with
  | error e =>
      simp [fetchAllCountries, tryFetchAllCountries, catchFetchAllCountries, h, hcache]
  | ok c =>
      simp [fetchAllCountries, tryFetchAllCountries, h, hstale, hcache]

/-- C6 witness: concrete fresh store and an environment whose list-all
endpoint is unreachable; the operation still succeeds from cache. -/
theorem fetchAllCountries_fresh_cache_no_remote_witness :
    isDataStale stFresh.lastUpdate CACHE_DURATION 2 = false
    ∧ (fetchAllCountries envNoRemote stFresh 2 false).result.success = true
    ∧ (fetchAllCountries envNoRemote stFresh 2 false).result.fromCache = some true
    ∧ (fetchAllCountries envNoRemote stFresh 2 false).apiCalls = 0 := by
  have h := fetchAllCountries_fresh_cache_no_remote envNoRemote stFresh 2 [cdFrance]
    (by decide) rfl
  exact ⟨by decide, h.1, h.2.1, h.2.2⟩

/-- C7 counterexample. The claim states that offline with the relevant cache
slot populated, each fetch operation returns success from cache; but
`fetchCountryDetails` searches the cached list by exact name: offline, with
the list slot populated by a record for "France", requesting "Spain" returns
failure, not success. -/
theorem fetchCountryDetails_offline_populated_counterexample :
    stFresh.countries.isSome = true
    ∧ (fetchCountryDetails envOffline stFresh 2 "Spain").result.success = false
    ∧ (fetchCountryDetails envOffline stFresh 2 "Spain").result.error
        = some "Country data not available" := by
  decide

/-- C7 (amended): offline with the relevant cache slot populated,
`fetchAllCountries` and `fetchHistoricalData` return success with
`fromCache = true`; `fetchCountryDetails` does so provided the cached list
contains an entry whose raw `country` field equals the requested name. -/
theorem offline_cache_fallback :
    (∀ (env : Env) (st : Storage) (now : Int) (forceRefresh : Bool) (d : List CountryDataIn),
      env.netFetch = .ok false → st.countries = some d →
        (fetchAllCountries env st now forceRefresh).result.success = true
        ∧ (fetchAllCountries env st now forceRefresh).result.fromCache = some true)
    ∧ (∀ (env : Env) (st : Storage) (now : Int) (countryName : String)
         (l : List CountryDataIn) (c : CountryDataIn),
      env.netFetch = .ok false → st.countries = some l →
      l.find? (fun x => x.country == some countryName) = some c →
        (fetchCountryDetails env st now countryName).result.success = true
        ∧ (fetchCountryDetails env st now countryName).result.fromCache = some true)
    ∧ (∀ (env : Env) (st : Storage) (countryName days : String) (h : HistoricalDataIn),
      env.netFetch = .ok false → st.historical countryName = some h →
        (fetchHistoricalData env st countryName days).result.success = true
        ∧ (fetchHistoricalData env st countryName days).result.fromCache = some true) := by
  refine ⟨?_, ?_, ?_⟩
  · intro env st now forceRefresh d hnet hcache
    simp only [fetchAllCountries, tryFetchAllCountries, hnet]
    by_cases hc : (!forceRefresh && !(isDataStale st.lastUpdate CACHE_DURATION now)) = true
    · simp [hc, hcache]
    · simp [hc, afterFirstRead, countriesFallback, hcache]
  · intro env st now countryName l c hnet hcache hfind
    simp [fetchCountryDetails, tryFetchCountryDetails, detailsCacheSearch,
          hnet, hcache, hfind]
  · intro env st countryName days h hnet hcache
    simp [fetchHistoricalData, tryFetchHistoricalData, historicalFallback, hnet, hcache]

/-- C7 witness: offline with each relevant slot populated (and the requested
country present in the cached list), all three operations answer from
cache. -/
theorem offline_cache_fallback_witness :
    (fetchAllCountries envOffline stWithHist 2 false).result.fromCache = some true
    ∧ (fetchCountryDetails envOffline stWithHist 2 "France").result.fromCache = some true
    ∧ (fetchHistoricalData envOffline stWithHist "France" "all").result.fromCache = some true := by
  refine ⟨(offline_cache_fallback.1 envOffline stWithHist 2 false [cdFrance] rfl rfl).2,
          (offline_cache_fallback.2.1 envOffline stWithHist 2 "France" [cdFrance] cdFrance
            rfl rfl (by decide)).2,
          (offline_cache_fallback.2.2 envOffline stWithHist "France" "all" {} rfl (by decide)).2⟩

/-- C8 counterexample. The claim states that every successful remote
list-all fetch persists the list and writes the freshness marker; but when
the store's write of the list fails, `saveCountriesData` skips the marker
write and persists nothing, while the operation still reports remote
success: here the remote call succeeded (`fromCache = false`) yet both slots
are still empty afterwards. -/
theorem fetchAllCountries_marker_skipped_counterexample :
    (fetchAllCountries envListOkWriteFail stEmpty 5 true).result.success = true
    ∧ (fetchAllCountries envListOkWriteFail stEmpty 5 true).result.fromCache = some false
    ∧ (fetchAllCountries envListOkWriteFail stEmpty 5 true).store.countries = none
    ∧ (fetchAllCountries envListOkWriteFail stEmpty 5 true).store.lastUpdate = none := by
  decide

/-- The marker slot after the try-block cache fallthrough is unchanged. -/
theorem countriesFallback_marker (st : Storage) (now : Int) (api reads0 : Nat) :
    (countriesFallback st now api reads0).store.lastUpdate = st.lastUpdate := by
  rw [countriesFallback_store]

/-- Marker behaviour of the remote-attempt part: either the marker slot is
untouched, or the remote list-all succeeded, the marker was set to now, the
returned list was persisted, and the outcome is fresh (not from cache). -/
theorem afterFirstRead_marker (env : Env) (st : Storage) (now : Int)
    (forceRefresh isConnected : Bool) (reads0 : Nat) :
    (afterFirstRead env st now forceRefresh isConnected reads0).store.lastUpdate = st.lastUpdate
    ∨ (∃ d, env.apiAll = .ok d
        ∧ (afterFirstRead env st now forceRefresh isConnected reads0).store.lastUpdate = some now
        ∧ (afterFirstRead env st now forceRefresh isConnected reads0).store.countries = some d
        ∧ (afterFirstRead env st now forceRefresh isConnected reads0).result.fromCache = some false) := by
  unfold afterFirstRead
  by_cases hc : (isConnected && (forceRefresh || isDataStale st.lastUpdate CACHE_DURATION now)) = true
  · cases ha : env.apiAll with
    | error e =>
        left
        simp [hc, apiGetAllCountries, ha, countriesFallback_marker]
    | ok d =>
        by_cases h1 : env.setCountriesOk
        · by_cases h2 : env.setLastUpdateOk
          · right
            exact ⟨d, rfl, by simp [hc, apiGetAllCountries, ha, saveCountriesData, h1, h2]⟩
          · left
            simp [hc, apiGetAllCountries, ha, saveCountriesData, h1, h2]
        · left
          simp [hc, apiGetAllCountries, ha, saveCountriesData, h1]
  · left
    simp [hc, countriesFallback_marker]

/-- C8 (amended): when `fetchAllCountries` makes a remote list-all call that
succeeds AND the store accepts the writes, the returned list is persisted,
the freshness marker is set to the current time, and the outcome is success
with `fromCache = false` (when the store rejects the list write, the outcome
is the same but neither slot is written); and the marker slot is never
changed except by such a successful remote list-all fetch. -/
theorem fetchAllCountries_remote_success_persists :
    (∀ (env : Env) (st : Storage) (now : Int) (forceRefresh : Bool) (d : List CountryDataIn),
      env.netFetch = .ok true →
      (forceRefresh || isDataStale st.lastUpdate CACHE_DURATION now) = true →
      env.apiAll = .ok d →
      env.setCountriesOk = true →
      env.setLastUpdateOk = true →
        ((fetchAllCountries env st now forceRefresh).store.countries = some d
         ∧ (fetchAllCountries env st now forceRefresh).store.lastUpdate = some now
         ∧ (fetchAllCountries env st now forceRefresh).result.success = true
         ∧ (fetchAllCountries env st now forceRefresh).result.fromCache = some false
         ∧ (fetchAllCountries env st now forceRefresh).apiCalls = 1))
    ∧ (∀ (env : Env) (st : Storage) (now : Int) (forceRefresh : Bool),
        (fetchAllCountries env st now forceRefresh).store.lastUpdate = st.lastUpdate
        ∨ (∃ d, env.apiAll = .ok d
            ∧ (fetchAllCountries env st now forceRefresh).store.lastUpdate = some now
            ∧ (fetchAllCountries env st now forceRefresh).store.countries = some d
            ∧ (fetchAllCountries env st now forceRefresh).result.fromCache = some false)) := by
  constructor
  · intro env st now forceRefresh d hnet hgate hapi hset1 hset2
    have hskip : (!forceRefresh && !(isDataStale st.lastUpdate CACHE_DURATION now)) = false := by
      cases forceRefresh <;> simp_all
    simp [fetchAllCountries, tryFetchAllCountries, hnet, hskip, afterFirstRead, hgate,
          apiGetAllCountries, hapi, saveCountriesData, hset1, hset2]
  · intro env st now forceRefresh
    cases hn : env.netFetch with
    | error e =>
        left
        simp [fetchAllCountries, tryFetchAllCountries, hn, catchFetchAllCountries_store]
    | ok c =>
        simp only [fetchAllCountries, tryFetchAllCountries, hn]
        by_cases h1 : (!forceRefresh && !(isDataStale st.lastUpdate CACHE_DURATION now)) = true
        · cases hc : st.countries with
          | none => simpa [h1, hc] using afterFirstRead_marker env st now forceRefresh c 1
          | some l => left; simp [h1, hc]
        · simpa [h1] using afterFirstRead_marker env st now forceRefresh c 0

/-- C8 witness: online forced refresh with a succeeding list-all endpoint
and an accepting store persists the list, stamps the marker, and reports a
fresh success. -/
theorem fetchAllCountries_remote_success_persists_witness :
    (fetchAllCountries envListOk stEmpty 7 true).store.countries = some [cdFrance]
    ∧ (fetchAllCountries envListOk stEmpty 7 true).store.lastUpdate = some 7
    ∧ (fetchAllCountries envListOk stEmpty 7 true).result.fromCache = some false := by
  have h := fetchAllCountries_remote_success_persists.1 envListOk stEmpty 7 true [cdFrance]
    rfl (by decide) rfl rfl rfl
  exact ⟨h.1, h.2.1, h.2.2.2.1⟩

/-- C9: when the connectivity probe raises, `fetchCountryDetails` reports a
failure carrying the fault's message and performs no cache read at all —
unlike `fetchAllCountries` and `fetchHistoricalData`, whose catch handlers
each read their cache slot once under the same fault. -/
theorem fetchCountryDetails_fault_no_cache_fallback :
    ∀ (env : Env) (st : Storage) (now : Int) (countryName days : String) (e : String),
      env.netFetch = .error e →
      ((fetchCountryDetails env st now countryName).result.success = false
       ∧ (fetchCountryDetails env st now countryName).result.error = some e
       ∧ (fetchCountryDetails env st now countryName).result.data = none
       ∧ (fetchCountryDetails env st now countryName).cacheReads = 0
       ∧ (fetchAllCountries env st now false).cacheReads = 1
       ∧ (fetchHistoricalData env st countryName days).cacheReads = 1) := by
  intro env st now countryName days e hn
  refine ⟨?_, ?_, ?_, ?_, ?_, ?_⟩ <;>
    simp [fetchCountryDetails, tryFetchCountryDetails, catchFetchCountryDetails,
          fetchAllCountries, tryFetchAllCountries, catchFetchAllCountries_cacheReads,
          fetchHistoricalData, tryFetchHistoricalData, catchFetchHistoricalData_cacheReads, hn]

/-- C9 witness: a concrete raising probe; details fails with the fault's
message and zero cache reads, the other two operations read their slot
once. -/
theorem fetchCountryDetails_fault_no_cache_fallback_witness :
    (fetchCountryDetails envNetFault stFresh 2 "France").result.success = false
    ∧ (fetchCountryDetails envNetFault stFresh 2 "France").result.error = some "network down"
    ∧ (fetchCountryDetails envNetFault stFresh 2 "France").cacheReads = 0
    ∧ (fetchAllCountries envNetFault stFresh 2 false).cacheReads = 1 := by
  have h := fetchCountryDetails_fault_no_cache_fallback envNetFault stFresh 2 "France" "all"
    "network down" rfl
  exact ⟨h.1, h.2.1, h.2.2.2.1, h.2.2.2.2.1⟩

/-- C10: with a fresh marker, an empty country-list slot, and the device
online, `fetchAllCountries(false)` fails with "No data available" and empty
data without invoking the remote endpoint, although the network could have
served the request. -/
theorem fetchAllCountries_fresh_empty_cache_failure :
    ∀ (env : Env) (st : Storage) (now : Int),
      env.netFetch = .ok true →
      isDataStale st.lastUpdate CACHE_DURATION now = false →
      st.countries = none →
      ((fetchAllCountries env st now false).result.success = false
       ∧ (fetchAllCountries env st now false).result.error = some "No data available"
       ∧ (fetchAllCountries env st now false).result.data = []
       ∧ (fetchAllCountries env st now false).apiCalls = 0) := by
  intro env st now hn hs hc
  simp [fetchAllCountries, tryFetchAllCountries, hn, hs, hc, afterFirstRead,
        countriesFallback]

/-- C10 witness: fresh marker, empty list slot, online, and a list-all
endpoint that would have succeeded; the operation still fails without
calling it. -/
theorem fetchAllCountries_fresh_empty_cache_failure_witness :
    (fetchAllCountries envListOk stFreshEmpty 2 false).result.success = false
    ∧ (fetchAllCountries envListOk stFreshEmpty 2 false).result.error = some "No data available"
    ∧ (fetchAllCountries envListOk stFreshEmpty 2 false).apiCalls = 0 := by
  have h := fetchAllCountries_fresh_empty_cache_failure envListOk stFreshEmpty 2
    rfl (by decide) rfl
  exact ⟨h.1, h.2.1, h.2.2.2⟩

end Covid
